import Mathlib

/-!
Shallow embedding of `snapborg/snapper.py`: the snapshot backup-state
encoding, the catalog, the cleanup-suppression guard and the
`run_snapper` executor wrapper.  Python strings are modelled as lists of
characters; every mutating method is modelled as returning, alongside the
updated in-memory object, the value it writes through the external
`snapper modify` command, so that persisted state can be reasoned about
explicitly.
-/

namespace Snapborg

/-- A Python string, modelled as its list of characters. -/
abbrev PyStr := List Char

/-- Python `dict.get(key, default)` over an association list. -/
def pyDictGet (m : List (PyStr × PyStr)) (key : PyStr) (dflt : PyStr) : PyStr :=
  (m.lookup key).getD dflt

/-- Python `str.split(sep)` for a one-character separator: `"".split` is
`[""]`, and adjacent separators produce empty fields. -/
def pySplit (sep : Char) : List Char → List (List Char)
  | [] => [[]]
  | c :: rest =>
    if c = sep then [] :: pySplit sep rest
    else
      match pySplit sep rest with
      | [] => [[c]]
      | t :: ts => (c :: t) :: ts

/-- Python `sep.join(parts)` for a one-character separator. -/
def pyJoin (sep : Char) : List (List Char) → List Char
  | [] => []
  | [t] => t
  | t :: ts => t ++ sep :: pyJoin sep ts

/-- Python `str.replace(pat, repl)` for a nonempty pattern: replace
non-overlapping occurrences left to right.  `fuel` bounds the recursion by
the length of the subject string, which suffices because every step
consumes at least one character; the program only calls `replace` with the
nonempty pattern `"true"`, so the empty-pattern row (which returns the
subject unchanged) is never exercised. -/
def pyReplaceFuel : Nat → List Char → List Char → List Char → List Char
  | _, s, [], _ => s
  | _, [], _ :: _, _ => []
  | 0, s, _ :: _, _ => s
  | fuel + 1, c :: s, p :: ps, repl =>
    if (p :: ps).isPrefixOf (c :: s) then
      repl ++ pyReplaceFuel fuel (s.drop ps.length) (p :: ps) repl
    else
      c :: pyReplaceFuel fuel s (p :: ps) repl

/-- Python `str.replace(pat, repl)` (nonempty `pat`). -/
def pyReplace (s pat repl : List Char) : List Char :=
  pyReplaceFuel s.length s pat repl

/-- One record of `snapper list` output, with the fields the program reads:
`number`, `date`, `userdata` (a mapping or `null`) and `cleanup`. -/
structure SnapshotInfo where
  number : Nat
  date : PyStr
  userdata : Option (List (PyStr × PyStr))
  cleanup : PyStr
deriving DecidableEq

/-- In-memory state of a `SnapperSnapshot`: the stored `info` record plus
the attributes derived in `__init__` (`_is_remote`, `_is_backed_up`,
`_existing_backup_val`, `_cleanup`). -/
structure SnapperSnapshot where
  info : SnapshotInfo
  is_remote : Bool
  is_backed_up : Bool
  existing_backup_val : PyStr
  cleanup : PyStr
deriving DecidableEq

/-- `SnapperSnapshot.__init__`: `repopath` is `config.repo.repopath`.  The
stored `snapborg_backup` userdata value (empty when the key or the whole
mapping is absent) has every occurrence of `"true"` replaced by `"local"`,
is split on `':'`, and the applicable token (`"remote"` iff the repository
path starts with `"ssh://"`, else `"local"`) is looked up in the result;
`_existing_backup_val` is the `':'`-join of the token list. -/
def SnapperSnapshot.init (repopath : PyStr) (info : SnapshotInfo) : SnapperSnapshot :=
  let is_remote := "ssh://".data.isPrefixOf repopath
  let sb_backup_vals :=
    pySplit ':'
      (pyReplace (pyDictGet (info.userdata.getD []) "snapborg_backup".data [])
        "true".data "local".data)
  { info := info
    is_remote := is_remote
    is_backed_up :=
      decide ((if is_remote then "remote".data else "local".data) ∈ sb_backup_vals)
    existing_backup_val := pyJoin ':' sb_backup_vals
    cleanup := info.cleanup }

/-- `SnapperSnapshot.get_number`. -/
def SnapperSnapshot.get_number (s : SnapperSnapshot) : Nat :=
  s.info.number

/-- `SnapperSnapshot.set_backed_up`: returns the updated object and the
value written for the `snapborg_backup` userdata key by the issued
`snapper modify` command (the new token, prefixed by
`_existing_backup_val` and `':'` when that string is nonempty). -/
def SnapperSnapshot.set_backed_up (s : SnapperSnapshot) : SnapperSnapshot × PyStr :=
  let new_sb_backup_val := if s.is_remote then "remote".data else "local".data
  let new_sb_backup_val :=
    if s.existing_backup_val ≠ [] then
      s.existing_backup_val ++ ':' :: new_sb_backup_val
    else new_sb_backup_val
  ({ s with is_backed_up := true }, new_sb_backup_val)

/-- `SnapperSnapshot.purge_userdata`: writes the empty value for the
`snapborg_backup` userdata key; the in-memory object is unchanged. -/
def SnapperSnapshot.purge_userdata (s : SnapperSnapshot) : SnapperSnapshot × PyStr :=
  (s, [])

/-- `SnapperSnapshot.prevent_cleanup`: the value written to the snapshot's
cleanup-algorithm field by the issued `snapper modify` command. -/
def SnapperSnapshot.prevent_cleanup (_ : SnapperSnapshot) : PyStr :=
  []

/-- `SnapperSnapshot.restore_cleanup_state`: the value written to the
snapshot's cleanup-algorithm field by the issued `snapper modify` command. -/
def SnapperSnapshot.restore_cleanup_state (s : SnapperSnapshot) : PyStr :=
  s.cleanup

/-- The two cleanup-mutating operations a snapshot can issue. -/
inductive CleanupOp where
  | disable : CleanupOp
  | restore : CleanupOp
deriving DecidableEq

/-- The value snapshot `s` writes to its persisted cleanup-algorithm field
when executing a cleanup operation. -/
def SnapperSnapshot.cleanup_write (s : SnapperSnapshot) : CleanupOp → PyStr
  | .disable => s.prevent_cleanup
  | .restore => s.restore_cleanup_state

/-- The persisted cleanup-algorithm field of snapshot `s` after a sequence
of cleanup operations, starting from `start`: each `snapper modify`
overwrites the field, so the last write wins. -/
def persisted_cleanup (s : SnapperSnapshot) (start : PyStr) (ops : List CleanupOp) : PyStr :=
  ops.foldl (fun _ op => s.cleanup_write op) start

/-- A `snapper modify` command issued by the suppression guard: either a
cleanup-disabling write or a cleanup-restoring write (with the value
written), both addressed by snapshot number. -/
inductive Ev where
  | disable : Nat → Ev
  | restore : Nat → PyStr → Ev
deriving DecidableEq

/-- Whether a guard command is a restore command. -/
def Ev.isRestore : Ev → Bool
  | .restore _ _ => true
  | .disable _ => false

/-- Entry phase of `SnapperConfig.prevent_cleanup`: call `prevent_cleanup`
on each snapshot in order.  `fails` tells for which snapshot numbers the
executor raises; a failing command is still issued, and abandons the rest
of the loop.  Returns the commands issued and whether the loop raised. -/
def guard_entry (fails : Nat → Bool) : List SnapperSnapshot → List Ev × Bool
  | [] => ([], false)
  | s :: rest =>
    if fails s.get_number then ([Ev.disable s.get_number], true)
    else
      let r := guard_entry fails rest
      (Ev.disable s.get_number :: r.1, r.2)

/-- Exit phase of `SnapperConfig.prevent_cleanup` (the `finally` block):
call `restore_cleanup_state` on each snapshot in order; a failing restore
raises and abandons the rest of the loop. -/
def guard_exit (fails : Nat → Bool) : List SnapperSnapshot → List Ev × Bool
  | [] => ([], false)
  | s :: rest =>
    if fails s.get_number then ([Ev.restore s.get_number s.restore_cleanup_state], true)
    else
      let r := guard_exit fails rest
      (Ev.restore s.get_number s.restore_cleanup_state :: r.1, r.2)

/-- One run of the `SnapperConfig.prevent_cleanup` context manager over the
guarded set `snaps`.  In the generator, the entry loop runs before the
`try` block, so an entry failure propagates without the `finally` restore
loop ever running; once the entry loop has completed, the `finally`
restore loop runs on every exit path, and a body exception re-propagates
after it (a restore failure raises instead).  Returns the commands issued
and whether the whole `with` block raised. -/
def prevent_cleanup_run (snaps : List SnapperSnapshot)
    (disable_fails restore_fails : Nat → Bool) (body_raises : Bool) :
    List Ev × Bool :=
  let e := guard_entry disable_fails snaps
  if e.2 then (e.1, true)
  else
    let x := guard_exit restore_fails snaps
    (e.1 ++ x.1, body_raises || x.2)

/-- In-memory state of a `SnapperConfig`: its name, its repository's path
(`repo.repopath`) and the `_snapshots` cache, `None` at construction. -/
structure SnapperConfig where
  name : PyStr
  repopath : PyStr
  snapshots : Option (List SnapperSnapshot)
deriving DecidableEq

/-- Python truthiness test applied to the `_snapshots` attribute: `None`
and the empty list are both falsy. -/
def pyFalsy : Option (List SnapperSnapshot) → Bool
  | none => true
  | some l => l.isEmpty

/-- `SnapperConfig.get_snapshots`: `query` is the configuration's entry of
the decoded `snapper list` output.  When the cache is falsy, one
`SnapperSnapshot` is built per record whose number is not `0`, in order,
and the list is cached; otherwise the cache is returned.  Returns the
returned list, the updated config, and whether the executor was queried. -/
def SnapperConfig.get_snapshots (c : SnapperConfig) (query : List SnapshotInfo) :
    List SnapperSnapshot × SnapperConfig × Bool :=
  if pyFalsy c.snapshots then
    let snaps := (query.filter (fun i => i.number != 0)).map (SnapperSnapshot.init c.repopath)
    (snaps, { c with snapshots := some snaps }, true)
  else
    (c.snapshots.getD [], c, false)

/-- An external-tool contact made by `run_snapper`: either the
`snapper --version` check performed by `check_snapper`, or the execution
of the built command line. -/
inductive Contact where
  | version_check : Contact
  | command : List PyStr → Contact
deriving DecidableEq

/-- `run_snapper`: `version_ok` is whether the memoized
`run_snapper.snapper_version_ok` attribute is already set, and `external`
models the executor's decoded output for a command line.  The version
check runs (contacting the tool) whenever the memo is unset, before the
dry-run test; under `dryrun` the built command is only printed and `None`
is returned.  Returns the new memo flag, the contacts made, and the data
returned. -/
def run_snapper (version_ok : Bool) (args : List PyStr) (config : Option PyStr)
    (external : List PyStr → Option PyStr) (dryrun : Bool) :
    Bool × List Contact × Option PyStr :=
  let checks : List Contact := if version_ok then [] else [Contact.version_check]
  let args_new :=
    "snapper".data ::
      ((match config with
        | none => []
        | some c => if c = [] then [] else ["-c".data, c]) ++
        ("--jsonout".data :: args))
  if dryrun then (true, checks, none)
  else (true, checks ++ [Contact.command args_new], external args_new)

/-- The reading of `isBackedUp` asserted by the specification: the stored
value is normalized to `"local"` only when it is exactly `"true"`, then
tokenized on `':'` and searched for the applicable token.  Stated for
comparison with the program's behavior. -/
def claim_is_backed_up (tag : PyStr) (remote : Bool) : Bool :=
  let normalized := if tag = "true".data then "local".data else tag
  decide ((if remote then "remote".data else "local".data) ∈ pySplit ':' normalized)

/-- The program's actual normalization of a stored backup tag: every
occurrence of the substring `"true"` is replaced by `"local"` before
tokenizing on `':'`. -/
def amended_is_backed_up (tag : PyStr) (remote : Bool) : Bool :=
  decide ((if remote then "remote".data else "local".data) ∈
    pySplit ':' (pyReplace tag "true".data "local".data))

/-- Sample `snapper list` record A of the guard scenario. -/
def infoA : SnapshotInfo := ⟨1, [], none, "number-cleanup".data⟩

/-- Sample `snapper list` record B of the guard scenario. -/
def infoB : SnapshotInfo := ⟨2, [], none, "timeline".data⟩

/-- Sample `snapper list` record C of the guard scenario, with an empty
cleanup algorithm. -/
def infoC : SnapshotInfo := ⟨3, [], none, []⟩

/-! Basic lemmas about the string helpers and the guard loops. -/

/-- Splitting never produces an empty list of fields. -/
theorem pySplit_ne_nil (sep : Char) (l : List Char) : pySplit sep l ≠ [] := by
  induction l with
  | nil => simp [pySplit]
  | cons c rest ih =>
    rw [pySplit]
    split
    · simp
    · split <;> simp

/-- Joining the fields produced by splitting recovers the original string,
as with Python's `sep.join(s.split(sep)) == s`. -/
theorem pyJoin_pySplit (sep : Char) (l : List Char) : pyJoin sep (pySplit sep l) = l := by
  induction l with
  | nil => rfl
  | cons c rest ih =>
    rw [pySplit]
    split
    · rename_i hc
      cases h : pySplit sep rest with
      | nil => exact absurd h (pySplit_ne_nil sep rest)
      | cons t ts =>
        rw [h] at ih
        subst hc
        simp only [pyJoin]
        cases ts with
        | nil => simpa using ih
        | cons u us => simpa using ih
    · cases h : pySplit sep rest with
      | nil => exact absurd h (pySplit_ne_nil sep rest)
      | cons t ts =>
        rw [h] at ih
        cases ts with
        | nil => simpa [pyJoin] using ih
        | cons u us => simpa [pyJoin] using ih

/-- The entry phase issues no restore command. -/
theorem guard_entry_no_restore (fails : Nat → Bool) (snaps : List SnapperSnapshot) :
    ((guard_entry fails snaps).1.any Ev.isRestore) = false := by
  induction snaps with
  | nil => rfl
  | cons s rest ih =>
    rw [guard_entry]
    split
    · simp [Ev.isRestore]
    · simpa [Ev.isRestore] using ih

/-- When no disable command fails, the entry phase issues one disable per
snapshot, in order, and does not raise. -/
theorem guard_entry_ok (fails : Nat → Bool) (snaps : List SnapperSnapshot)
    (h : ∀ s ∈ snaps, fails s.get_number = false) :
    guard_entry fails snaps = (snaps.map (fun s => Ev.disable s.get_number), false) := by
  induction snaps with
  | nil => rfl
  | cons s rest ih =>
    rw [guard_entry]
    rw [h s (by simp)]
    simp only [if_neg (by simp : ¬ (false = true))]
    rw [ih (fun s hs => h s (by simp [hs]))]
    simp

/-- When no restore command fails, the exit phase issues one restore per
snapshot, in order, each writing that snapshot's remembered cleanup value,
and does not raise. -/
theorem guard_exit_ok (fails : Nat → Bool) (snaps : List SnapperSnapshot)
    (h : ∀ s ∈ snaps, fails s.get_number = false) :
    guard_exit fails snaps =
      (snaps.map (fun s => Ev.restore s.get_number s.restore_cleanup_state), false) := by
  induction snaps with
  | nil => rfl
  | cons s rest ih =>
    rw [guard_exit]
    rw [h s (by simp)]
    simp only [if_neg (by simp : ¬ (false = true))]
    rw [ih (fun s hs => h s (by simp [hs]))]
    simp

/-- The remote/local classification derived at construction. -/
theorem init_is_remote (rp : PyStr) (info : SnapshotInfo) :
    (SnapperSnapshot.init rp info).is_remote = "ssh://".data.isPrefixOf rp := rfl

/-- The `_existing_backup_val` attribute is exactly the stored tag after
the `"true"` → `"local"` substring replacement: the `':'`-join undoes the
`':'`-split. -/
theorem init_existing_backup_val (rp : PyStr) (info : SnapshotInfo) :
    (SnapperSnapshot.init rp info).existing_backup_val =
      pyReplace (pyDictGet (info.userdata.getD []) "snapborg_backup".data [])
        "true".data "local".data := by
  simp only [SnapperSnapshot.init]
  exact pyJoin_pySplit ':' _

/-- Construction from a record whose stored backup tag is empty: not
backed up, and `_existing_backup_val` is empty. -/
theorem init_empty_tag (rp : PyStr) (info : SnapshotInfo)
    (hud : pyDictGet (info.userdata.getD []) "snapborg_backup".data [] = []) :
    SnapperSnapshot.init rp info =
      ⟨info, "ssh://".data.isPrefixOf rp, false, [], info.cleanup⟩ := by
  cases hb : "ssh://".data.isPrefixOf rp <;>
    simp only [SnapperSnapshot.init, hud, hb, SnapperSnapshot.mk.injEq] <;>
    decide

/-- Construction from a record with a known stored backup tag, with the
derived attributes spelled out. -/
theorem init_tag (rp : PyStr) (info : SnapshotInfo) (tag : PyStr)
    (hud : pyDictGet (info.userdata.getD []) "snapborg_backup".data [] = tag) :
    SnapperSnapshot.init rp info =
      ⟨info, "ssh://".data.isPrefixOf rp,
        decide ((if "ssh://".data.isPrefixOf rp then "remote".data else "local".data) ∈
          pySplit ':' (pyReplace tag "true".data "local".data)),
        pyReplace tag "true".data "local".data,
        info.cleanup⟩ := by
  simp only [SnapperSnapshot.init, hud, pyJoin_pySplit]

/-! Claim C1. -/

/-- C1, counterexample: the claim asserts that when the entry phase of the
cleanup-suppression guard fails partway, `restoreCleanup` is still invoked
for every snapshot originally in the guarded set before the error
propagates.  In the program the entry loop runs before the `try` block of
the context manager, so its `finally` clause never runs: with guarded set
`[A, B]` (numbers 1 and 2) and the disable command failing on snapshot 2,
the run raises and the issued commands are exactly
`[disable 1, disable 2]` — no restore command at all, for neither
snapshot. -/
theorem C1_counterexample :
    (guard_entry (fun n => n == 2)
      [SnapperSnapshot.init [] infoA, SnapperSnapshot.init [] infoB]).2 = true ∧
    prevent_cleanup_run [SnapperSnapshot.init [] infoA, SnapperSnapshot.init [] infoB]
        (fun n => n == 2) (fun _ => false) false =
      ([Ev.disable 1, Ev.disable 2], true) := by decide

/-- C1, amended: if the entry phase of the guard fails partway, the error
propagates to the caller and no `restoreCleanup` command is issued for any
snapshot of the guarded set (snapshots disabled before the failure remain
suppressed). -/
theorem C1_amended (snaps : List SnapperSnapshot) (dfails rfails : Nat → Bool) (body : Bool)
    (h : (guard_entry dfails snaps).2 = true) :
    (prevent_cleanup_run snaps dfails rfails body).2 = true ∧
    ((prevent_cleanup_run snaps dfails rfails body).1.any Ev.isRestore) = false := by
  constructor
  · simp [prevent_cleanup_run, h]
  · simp [prevent_cleanup_run, h, guard_entry_no_restore]

/-- C1, witness: the amended theorem applied to a one-snapshot guarded set
whose disable command fails. -/
theorem C1_witness :
    (prevent_cleanup_run [SnapperSnapshot.init [] infoB] (fun _ => true) (fun _ => true)
      true).2 = true ∧
    ((prevent_cleanup_run [SnapperSnapshot.init [] infoB] (fun _ => true) (fun _ => true)
        true).1.any Ev.isRestore) = false :=
  C1_amended _ _ _ _ (by decide)

/-! Claim C2. -/

/-- C2: when every disable and every restore command succeeds and an
exception is raised inside the guarded body, the guard issues one disable
per guarded snapshot in list order followed by one restore per guarded
snapshot in the same order, each restore writing the cleanup-algorithm
value captured at that snapshot's construction, and the run re-raises
after the restoration pass. -/
theorem C2_body_error_restores (rp : PyStr) (infos : List SnapshotInfo)
    (dfails rfails : Nat → Bool)
    (hd : ∀ i ∈ infos, dfails i.number = false)
    (hr : ∀ i ∈ infos, rfails i.number = false) :
    prevent_cleanup_run (infos.map (SnapperSnapshot.init rp)) dfails rfails true =
      (infos.map (fun i => Ev.disable i.number) ++
        infos.map (fun i => Ev.restore i.number i.cleanup), true) := by
  have hd' : ∀ s ∈ infos.map (SnapperSnapshot.init rp), dfails s.get_number = false := by
    intro s hs
    rcases List.mem_map.1 hs with ⟨i, hi, rfl⟩
    exact hd i hi
  have hr' : ∀ s ∈ infos.map (SnapperSnapshot.init rp), rfails s.get_number = false := by
    intro s hs
    rcases List.mem_map.1 hs with ⟨i, hi, rfl⟩
    exact hr i hi
  simp only [prevent_cleanup_run, guard_entry_ok _ _ hd', guard_exit_ok _ _ hr']
  simp [List.map_map, Function.comp_def, SnapperSnapshot.get_number,
    SnapperSnapshot.restore_cleanup_state, SnapperSnapshot.init]

/-- C2, witness: the spec's guard scenario, guarded set `[A, B, C]` with
initial cleanup values `"number-cleanup"`, `"timeline"` and `""` and an
exception raised inside the body. -/
theorem C2_witness :
    prevent_cleanup_run ([infoA, infoB, infoC].map (SnapperSnapshot.init []))
        (fun _ => false) (fun _ => false) true =
      ([infoA, infoB, infoC].map (fun i => Ev.disable i.number) ++
        [infoA, infoB, infoC].map (fun i => Ev.restore i.number i.cleanup), true) :=
  C2_body_error_restores [] [infoA, infoB, infoC] (fun _ => false) (fun _ => false)
    (by decide) (by decide)

/-! Claim C3. -/

/-- C3, counterexample: the claim asserts that a second `markBackedUp` on
a snapshot constructed with no prior backup tag persists `"local:local"`.
In the program `set_backed_up` never updates `_existing_backup_val`, so a
second call on the same in-memory snapshot persists `"local"` again, which
differs from `"local:local"`. -/
theorem C3_counterexample :
    (((SnapperSnapshot.init [] ⟨1, [], none, []⟩).set_backed_up).1.set_backed_up).2 =
      "local".data ∧
    "local".data ≠ "local:local".data := by decide

/-- C3, amended: for a snapshot constructed with no prior backup tag and a
local destination, the first `markBackedUp` persists `"local"`; a second
call on the same in-memory snapshot persists `"local"` again (the
pre-existing tag captured at construction is never updated); the value
`"local:local"` is persisted by `markBackedUp` on a snapshot re-constructed
from the store after the first call persisted `"local"`. -/
theorem C3_amended (rp : PyStr) (n : Nat) (d cl : PyStr)
    (hlocal : "ssh://".data.isPrefixOf rp = false) :
    (((SnapperSnapshot.init rp ⟨n, d, none, cl⟩).set_backed_up).2 = "local".data) ∧
    ((((SnapperSnapshot.init rp ⟨n, d, none, cl⟩).set_backed_up).1.set_backed_up).2 =
      "local".data) ∧
    (((SnapperSnapshot.init rp
        ⟨n, d, some [("snapborg_backup".data, "local".data)], cl⟩).set_backed_up).2 =
      "local:local".data) := by
  rw [init_empty_tag rp ⟨n, d, none, cl⟩ rfl,
    init_tag rp ⟨n, d, some [("snapborg_backup".data, "local".data)], cl⟩ "local".data rfl]
  refine ⟨?_, ?_, ?_⟩
  · simp [SnapperSnapshot.set_backed_up, hlocal]
  · simp [SnapperSnapshot.set_backed_up, hlocal]
  · simp only [SnapperSnapshot.set_backed_up, hlocal]
    decide

/-- C3, witness: the amended theorem at snapshot number 7 of a
non-`ssh://` (local) repository. -/
theorem C3_witness :
    (((SnapperSnapshot.init "/backup".data
        ⟨7, [], none, "timeline".data⟩).set_backed_up).2 = "local".data) ∧
    ((((SnapperSnapshot.init "/backup".data
        ⟨7, [], none, "timeline".data⟩).set_backed_up).1.set_backed_up).2 = "local".data) ∧
    (((SnapperSnapshot.init "/backup".data
        ⟨7, [], some [("snapborg_backup".data, "local".data)],
          "timeline".data⟩).set_backed_up).2 = "local:local".data) :=
  C3_amended "/backup".data 7 [] "timeline".data (by decide)

/-! Claim C4. -/

/-- C4, counterexample: the claim asserts that `purgeBackupTag` followed by
`isBackedUp` returns false even when the tag previously contained the
applicable token.  In the program `purge_userdata` issues the erasing
modify command but leaves the in-memory `_is_backed_up` flag untouched, so
for a local-destination snapshot constructed with stored tag `"local"` the
query still returns true after the purge. -/
theorem C4_counterexample :
    (SnapperSnapshot.init []
        ⟨1, [], some [("snapborg_backup".data, "local".data)], []⟩).is_backed_up = true ∧
    ((SnapperSnapshot.init []
        ⟨1, [], some [("snapborg_backup".data, "local".data)],
          []⟩).purge_userdata).1.is_backed_up = true := by decide

/-- C4, amended: `purge_userdata` persists the empty tag (discarding every
token, foreign ones included) while leaving the in-memory object
unchanged; a snapshot re-constructed from the purged store reports
`isBackedUp` false for every destination class. -/
theorem C4_amended (rp rp2 : PyStr) (info : SnapshotInfo) :
    ((SnapperSnapshot.init rp info).purge_userdata).2 = [] ∧
    ((SnapperSnapshot.init rp info).purge_userdata).1 = SnapperSnapshot.init rp info ∧
    (SnapperSnapshot.init rp2
        { info with userdata := some [("snapborg_backup".data, [])] }).is_backed_up = false := by
  refine ⟨rfl, rfl, ?_⟩
  rw [init_empty_tag rp2 { info with userdata := some [("snapborg_backup".data, [])] } rfl]

/-! Claim C5. -/

/-- C5, counterexample: the claim asserts that only a stored value of
exactly `"true"` is normalized, other tokens being tokenized unchanged.
For the stored tag `"foo:true"` (not exactly `"true"`) and a local
destination, the program replaces the substring and reports backed-up,
while the claim's predicate, which leaves `"foo:true"` untouched, does
not — so the asserted equivalence fails at this input. -/
theorem C5_counterexample :
    (SnapperSnapshot.init []
        ⟨1, [], some [("snapborg_backup".data, "foo:true".data)], []⟩).is_backed_up = true ∧
    claim_is_backed_up "foo:true".data false = false := by decide

/-- C5, amended: `isBackedUp` is true iff the colon-separated token set of
the stored tag, after replacing every occurrence of the substring `"true"`
by `"local"`, contains `"remote"` when the destination is remote and
`"local"` otherwise. -/
theorem C5_amended (rp : PyStr) (info : SnapshotInfo) :
    (SnapperSnapshot.init rp info).is_backed_up =
      amended_is_backed_up (pyDictGet (info.userdata.getD []) "snapborg_backup".data [])
        ("ssh://".data.isPrefixOf rp) := rfl

/-! Claim C6. -/

/-- C6: `restore_cleanup_state` writes exactly the cleanup-algorithm
string captured at construction time (including the empty string), so any
sequence of disable/restore writes ending in a restore leaves the
persisted cleanup-algorithm field at its construction-time value,
regardless of intermediate `prevent_cleanup` calls. -/
theorem C6_cleanup_roundtrip (rp : PyStr) (info : SnapshotInfo) (start : PyStr)
    (ops : List CleanupOp) :
    (SnapperSnapshot.init rp info).restore_cleanup_state = info.cleanup ∧
    persisted_cleanup (SnapperSnapshot.init rp info) start (ops ++ [CleanupOp.restore]) =
      info.cleanup := by
  constructor
  · rfl
  · simp [persisted_cleanup, List.foldl_append, SnapperSnapshot.cleanup_write,
      SnapperSnapshot.restore_cleanup_state, SnapperSnapshot.init]

/-! Claim C7. -/

/-- C7, counterexample: the claim asserts that every call after the first
returns the cached sequence without querying the executor again, including
when the cached sequence is empty.  The guard `if not self._snapshots`
treats the cached empty list like the initial `None`: after a first call
whose query yields only the live snapshot number 0 (so the empty list is
cached), a second call queries the executor again. -/
theorem C7_counterexample :
    ((SnapperConfig.mk "root".data [] none).get_snapshots [⟨0, [], none, []⟩]).2.1.snapshots =
      some [] ∧
    ((((SnapperConfig.mk "root".data [] none).get_snapshots
        [⟨0, [], none, []⟩]).2.1).get_snapshots [⟨0, [], none, []⟩]).2.2 = true := by decide

/-- C7, amended: when the cache holds a non-empty sequence, `get_snapshots`
returns it unchanged without querying the executor; when the cache is
falsy (`None` or the empty list), the executor is queried, entries with
number 0 are excluded, one snapshot is built per remaining entry in order,
and the result is cached; every snapshot produced by a fresh load has a
non-zero number. -/
theorem C7_amended (c : SnapperConfig) (q : List SnapshotInfo) :
    (∀ l, c.snapshots = some l → l ≠ [] → c.get_snapshots q = (l, c, false)) ∧
    (pyFalsy c.snapshots = true →
      c.get_snapshots q =
        ((q.filter (fun i => i.number != 0)).map (SnapperSnapshot.init c.repopath),
          { c with
            snapshots := some
              ((q.filter (fun i => i.number != 0)).map (SnapperSnapshot.init c.repopath)) },
          true)) ∧
    (∀ s ∈ (q.filter (fun i => i.number != 0)).map (SnapperSnapshot.init c.repopath),
      s.get_number ≠ 0) := by
  refine ⟨?_, ?_, ?_⟩
  · intro l hl hne
    simp [SnapperConfig.get_snapshots, pyFalsy, hl, hne]
  · intro h
    simp [SnapperConfig.get_snapshots, h]
  · intro s hs
    rcases List.mem_map.1 hs with ⟨i, hi, rfl⟩
    have h2 := (List.mem_filter.1 hi).2
    simpa [SnapperSnapshot.get_number, SnapperSnapshot.init] using h2

/-- C7, witness: the amended theorem applied to a config with a non-empty
cache (no re-query) and to a fresh config (query and cache). -/
theorem C7_witness :
    (SnapperConfig.mk "root".data [] (some [SnapperSnapshot.init [] infoA])).get_snapshots
        [infoB] =
      ([SnapperSnapshot.init [] infoA],
        SnapperConfig.mk "root".data [] (some [SnapperSnapshot.init [] infoA]), false) ∧
    (SnapperConfig.mk "root".data [] none).get_snapshots [infoB] =
      (([infoB].filter (fun i => i.number != 0)).map (SnapperSnapshot.init []),
        SnapperConfig.mk "root".data []
          (some (([infoB].filter (fun i => i.number != 0)).map (SnapperSnapshot.init []))),
        true) :=
  ⟨(C7_amended (SnapperConfig.mk "root".data [] (some [SnapperSnapshot.init [] infoA]))
      [infoB]).1 _ rfl (by decide),
    (C7_amended (SnapperConfig.mk "root".data [] none) [infoB]).2.1 rfl⟩

/-! Claim C8. -/

/-- C8, counterexample: the claim asserts that under the dry-run flag no
invocation contacts the external tool, the version gate running only
before the first real invocation.  In the program the memoized version
check runs before the dry-run test, so the first invocation — even a
dry-run one — contacts the tool with `snapper --version`. -/
theorem C8_counterexample :
    (run_snapper false ["list".data] none (fun _ => none) true).2.1 ≠ [] ∧
    (run_snapper false ["list".data] none (fun _ => none) true).2.1 =
      [Contact.version_check] := by decide

/-- C8, amended: a dry-run invocation never executes the built snapper
command and returns no data, and `set_backed_up` still sets the in-memory
backed-up flag; but the version gate runs on the first invocation of any
kind, dry-run included: the only contact a dry-run invocation makes is the
version check, and only when the memo flag was still unset. -/
theorem C8_amended (vok : Bool) (args : List PyStr) (config : Option PyStr)
    (external : List PyStr → Option PyStr) (s : SnapperSnapshot) :
    (run_snapper vok args config external true).2.2 = none ∧
    (run_snapper vok args config external true).2.1 =
      (if vok then [] else [Contact.version_check]) ∧
    (run_snapper vok args config external true).1 = true ∧
    ((s.set_backed_up).1.is_backed_up = true) :=
  ⟨rfl, rfl, rfl, rfl⟩

/-! Claim C9. -/

/-- C9: a snapshot built from a record whose userdata field is `null`
carries exactly the same derived state as one built from an empty userdata
mapping; both report not backed up, and the first `set_backed_up` on
either persists the new token alone, with no leading separator. -/
theorem C9_null_userdata (rp : PyStr) (n : Nat) (d cl : PyStr) :
    let sN := SnapperSnapshot.init rp ⟨n, d, none, cl⟩
    let sE := SnapperSnapshot.init rp ⟨n, d, some [], cl⟩
    (sN.is_remote = sE.is_remote ∧ sN.is_backed_up = sE.is_backed_up ∧
      sN.existing_backup_val = sE.existing_backup_val ∧ sN.cleanup = sE.cleanup) ∧
    sN.is_backed_up = false ∧ sE.is_backed_up = false ∧
    (sN.set_backed_up).2 = (if sN.is_remote then "remote".data else "local".data) ∧
    (sE.set_backed_up).2 = (if sE.is_remote then "remote".data else "local".data) := by
  intro sN sE
  have hN : sN = ⟨⟨n, d, none, cl⟩, "ssh://".data.isPrefixOf rp, false, [], cl⟩ :=
    init_empty_tag rp ⟨n, d, none, cl⟩ rfl
  have hE : sE = ⟨⟨n, d, some [], cl⟩, "ssh://".data.isPrefixOf rp, false, [], cl⟩ :=
    init_empty_tag rp ⟨n, d, some [], cl⟩ rfl
  rw [hN, hE]
  simp [SnapperSnapshot.set_backed_up]

/-! Claim C10. -/

/-- C10: `set_backed_up` persists the normalized form of the pre-existing
tag captured at construction — every occurrence of the substring `"true"`
replaced by `"local"` — joined with `':'` to the new token when that
normalized form is non-empty, the token alone otherwise; in particular a
foreign token containing `"true"` as a substring is rewritten in the
persisted value, as the concrete `"footrue:bar"` instance shows. -/
theorem C10_markBackedUp_normalized (rp : PyStr) (info : SnapshotInfo) :
    (((SnapperSnapshot.init rp info).set_backed_up).2 =
      (let norm := pyReplace (pyDictGet (info.userdata.getD []) "snapborg_backup".data [])
          "true".data "local".data
       let tok := if "ssh://".data.isPrefixOf rp then "remote".data else "local".data
       if norm ≠ [] then norm ++ ':' :: tok else tok)) ∧
    ((SnapperSnapshot.init []
        ⟨1, [], some [("snapborg_backup".data, "footrue:bar".data)], []⟩).set_backed_up).2 =
      "foolocal:bar:local".data := by
  refine ⟨?_, by decide⟩
  simp only [SnapperSnapshot.set_backed_up, init_existing_backup_val, init_is_remote]

end Snapborg
